import Mathlib

/-!
Verification of `src/disk_age.py` (module `disk_age`, function `Age`).

The Python function `Age(alpha)` embeds a fixed calibration histogram
(`histo_alpha`, `histo_value`), fits a cubic smoothing spline to it with
scipy (`tck_36 = splrep(histo_alpha, histo_value, k=3, s=0.08)`), clamps
the input to the interval [-2, 4.8] (printing a colored warning for each
out-of-range value), and returns
`splint(alpha_max, clamped, tck_36) * 2 / splint(-0.3, -1.6, tck_36)`,
either for one scalar or elementwise for an iterable input.

Python floats that appear as decimal literals in the source are embedded
as exact rationals (`ℚ`), digit for digit.

The spline fit itself lives in scipy (FITPACK), an external library whose
code is not part of this repository.  Every structural claim about `Age`
is therefore proved for an arbitrary definite-integral oracle
`I : ℚ → ℚ → ℚ`, where `I p q` stands for `splint(p, q, tck_36)`: since
the histogram, the degree `k = 3` and the smoothing factor `s = 0.08` are
fixed constants, `tck_36` — and hence this oracle — is the same fixed
function in every call, so any fact proved for all `I` holds in
particular for the scipy one.
-/

namespace DiskAge

/-- The calibration bin centers `histo_alpha` from line 21 of
`src/disk_age.py`, as exact rationals. -/
def histo_alpha : List ℚ := [
  -3.028380897, -2.946254679, -2.864128461, -2.782002244, -2.699876026, -2.617749808, -2.53562359,
  -2.453497372, -2.371371154, -2.289244937, -2.207118719, -2.124992501, -2.042866283, -1.960740065,
  -1.878613848, -1.79648763, -1.714361412, -1.632235194, -1.550108976, -1.467982758, -1.385856541,
  -1.303730323, -1.221604105, -1.139477887, -1.057351669, -0.975225452, -0.893099234, -0.810973016,
  -0.728846798, -0.64672058, -0.564594362, -0.482468145, -0.400341927, -0.318215709, -0.236089491,
  -0.153963273, -0.071837056, 0.010289162, 0.09241538, 0.174541598, 0.256667816, 0.338794034,
  0.420920251, 0.503046469, 0.585172687, 0.667298905, 0.749425123, 0.831551341, 0.913677558,
  0.995803776, 1.077929994, 1.160056212, 1.24218243, 1.324308647, 1.406434865, 1.488561083,
  1.570687301, 1.652813519, 1.734939737, 1.817065954, 1.899192172, 1.98131839, 2.063444608,
  2.145570826, 2.227697043, 2.309823261, 2.391949479, 2.474075697, 2.556201915, 2.638328133,
  2.72045435, 2.802580568, 2.884706786, 2.966833004, 3.048959222, 3.131085439, 3.213211657,
  3.295337875, 3.377464093, 3.459590311, 3.541716529, 3.623842746, 3.705968964, 3.788095182,
  3.8702214, 3.952347618, 4.034473836, 4.116600053, 4.198726271, 4.280852489, 4.362978707,
  4.445104925, 4.527231142, 4.60935736, 4.691483578, 4.773609796]

/-- The calibration frequencies `histo_value` from line 22 of
`src/disk_age.py`, as exact rationals. -/
def histo_value : List ℚ := [
  0.002449976, 0.004899952, 0.015442271, 0.100419626, 0.030194253, 0.06643178, 0.079866664,
  0.08716341, 0.067915637, 0.056719817, 0.082373265, 0.089398067, 0.053945029, 0.060853461,
  0.044014358, 0.06509256, 0.16317058, 0.101891253, 0.125773205, 0.219043265, 0.432833895,
  0.449567946, 0.544663194, 0.886259852, 0.989236206, 0.862846181, 0.783440641, 0.583325985,
  0.538039262, 0.555406536, 0.344999831, 0.262820176, 0.260577964, 0.19849541, 0.168269814,
  0.165631222, 0.201100745, 0.192358644, 0.186583574, 0.141933609, 0.161162725, 0.08387892,
  0.117124554, 0.126359873, 0.147117747, 0.098773219, 0.137713416, 0.111048893, 0.125858942,
  0.057581656, 0.067554811, 0.078102251, 0.075011976, 0.043499395, 0.048333773, 0.054341961,
  0.036089777, 0.072085757, 0.080411503, 0.019417482, 0.030378068, 0.025724051, 0.018948669,
  0.02000099, 0.000978612, 0.037802944, 0.003579561, 0.004455848, 0.003073425, 0.019818801,
  0.001011327, 0.0, 0.002615764, 0.0, 0.001073755, 0.0, 0.0, 0.0, 0.0, 0.0, 0.0, 0.0, 0.0,
  0.0, 0.0, 0.0, 0.0, 0.0, 0.0, 0.0, 0.0, 0.0, 0.0, 0.0, 0.0, 0.0]

/-- The hardcoded literal `alpha_max = 4.814672904812319` from line 26 of
`src/disk_age.py`. -/
def alpha_max : ℚ := 4.814672904812319

lemma histo_alpha_length : histo_alpha.length = 96 := rfl

lemma histo_value_length : histo_value.length = 96 := rfl

lemma histo_alpha_chain : List.Chain' (· < ·) histo_alpha := by
  rw [histo_alpha]
  norm_num [List.chain'_cons]

lemma histo_value_nonneg : ∀ x ∈ histo_value, 0 ≤ x := by
  rw [histo_value]
  simp only [List.forall_mem_cons, List.not_mem_nil, false_implies, implies_true, and_true]
  norm_num

lemma histo_alpha_max_mem : (4.773609796 : ℚ) ∈ histo_alpha := by
  rw [histo_alpha]
  simp only [List.mem_cons]
  norm_num

lemma histo_alpha_le_max : ∀ x ∈ histo_alpha, x ≤ (4.773609796 : ℚ) := by
  rw [histo_alpha]
  simp only [List.forall_mem_cons, List.not_mem_nil, false_implies, implies_true, and_true]
  norm_num

lemma alpha_max_gt_max : (4.773609796 : ℚ) < alpha_max := by
  rw [alpha_max]; norm_num

lemma alpha_max_gap : alpha_max - (4.773609796 : ℚ) = (0.041063108812319 : ℚ) := by
  rw [alpha_max]; norm_num

/-- One diagnostic warning, as printed by lines 30-31 / 37-38 of the
source: a "too small" or "too large" message carrying the offending
original (pre-clamp) value. -/
inductive Warning where
  | tooSmall (orig : ℚ)
  | tooLarge (orig : ℚ)
deriving DecidableEq

/-- The warnings one scalar evaluation prints: `if alpha < -2` a too-small
warning with the original value, `elif alpha > 4.8` a too-large warning
with the original value, else nothing (lines 30-31 of the source). -/
def warnOf (a : ℚ) : List Warning :=
  if a < -2 then [Warning.tooSmall a]
  else if a > 4.8 then [Warning.tooLarge a]
  else []

/-- `alpha = min(max(alpha, -2), 4.8)` from line 32 of the source. -/
def clampAlpha (a : ℚ) : ℚ := min (max a (-2)) 4.8

/-- The scalar age value, line 33 of the source:
`splint(alpha_max, alpha, tck_36) * 2 / splint(-0.3, -1.6, tck_36)`,
with the spline integral `splint(p, q, tck_36)` abstracted as the oracle
`I p q` (the spline lives in scipy, outside this repository; `tck_36` is
the same fixed object in every call). -/
def ageScalar (I : ℚ → ℚ → ℚ) (a : ℚ) : ℚ :=
  I alpha_max (clampAlpha a) * 2 / I (-0.3) (-1.6)

/-- A Python runtime error relevant to `Age`: the `TypeError` raised by
`for i in alpha` when `alpha` is not iterable. -/
inductive PyError where
  | typeError
deriving DecidableEq

/-- The Python values `Age` can receive: a builtin `int`, a builtin
`float` (embedded as an exact rational), a `bool`, or a list of floats. -/
inductive PyVal where
  | pyInt (n : ℤ)
  | pyFloat (x : ℚ)
  | pyBool (b : Bool)
  | pyList (xs : List ℚ)
deriving DecidableEq

/-- The Python type tags the dispatch on line 29 can distinguish. -/
inductive PyType where
  | int
  | float
  | bool
  | list
deriving DecidableEq

/-- `type(alpha)` for the embedded values.  Note `type(True)` is `bool`,
not `int`: Python's `type` returns the exact class. -/
def pyType : PyVal → PyType
  | .pyInt _ => .int
  | .pyFloat _ => .float
  | .pyBool _ => .bool
  | .pyList _ => .list

/-- The dispatch test `type(alpha) in [int, float]` from line 29 of the
source: an exact type test, true only for builtin `int` and `float`. -/
def scalarBranch (v : PyVal) : Bool :=
  (pyType v == PyType.int) || (pyType v == PyType.float)

/-- The numeric value a scalar-branch input carries (only `pyInt` and
`pyFloat` ever reach the scalar branch; the other cases are
unreachable there and given dummy values). -/
def scalarVal : PyVal → ℚ
  | .pyInt n => (n : ℚ)
  | .pyFloat x => x
  | .pyBool b => if b then 1 else 0
  | .pyList _ => 0

/-- `for i in alpha` from line 36 of the source: a list yields its
elements; an `int`, `float` or `bool` is not iterable, so iterating it
raises `TypeError`. -/
def iterFloats : PyVal → Except PyError (List ℚ)
  | .pyList xs => .ok xs
  | _ => .error .typeError

/-- The result of `Age`: a scalar float or a list of floats. -/
inductive PyOut where
  | scalar (x : ℚ)
  | vector (xs : List ℚ)
deriving DecidableEq

/-- The function `Age` of `src/disk_age.py`, lines 19-41, over the
abstract spline-integral oracle `I` (see `ageScalar`).  The returned pair
carries the value and the list of warnings printed during the call, in
print order.  If `type(alpha) in [int, float]`, one scalar is clamped and
evaluated; otherwise `for i in alpha` iterates the input (raising
`TypeError` on a non-iterable) and each element is independently warned
about, clamped and evaluated, the results collected in order. -/
def Age (I : ℚ → ℚ → ℚ) (v : PyVal) : Except PyError (PyOut × List Warning) :=
  if scalarBranch v then
    Except.ok (PyOut.scalar (ageScalar I (scalarVal v)), warnOf (scalarVal v))
  else
    match iterFloats v with
    | .error e => .error e
    | .ok xs => Except.ok (PyOut.vector (xs.map (ageScalar I)), xs.flatMap warnOf)

/-- `Age()` with the argument omitted: the default is `alpha = 0.0`
(line 19 of the source). -/
def AgeDefault (I : ℚ → ℚ → ℚ) : Except PyError (PyOut × List Warning) :=
  Age I (PyVal.pyFloat 0)

lemma Age_float (I : ℚ → ℚ → ℚ) (x : ℚ) :
    Age I (PyVal.pyFloat x) =
      Except.ok (PyOut.scalar (ageScalar I x), warnOf x) := rfl

lemma Age_int (I : ℚ → ℚ → ℚ) (n : ℤ) :
    Age I (PyVal.pyInt n) =
      Except.ok (PyOut.scalar (ageScalar I (n : ℚ)), warnOf (n : ℚ)) := rfl

lemma Age_list (I : ℚ → ℚ → ℚ) (xs : List ℚ) :
    Age I (PyVal.pyList xs) =
      Except.ok (PyOut.vector (xs.map (ageScalar I)), xs.flatMap warnOf) := rfl

lemma Age_bool (I : ℚ → ℚ → ℚ) (b : Bool) :
    Age I (PyVal.pyBool b) = Except.error PyError.typeError := rfl

lemma clampAlpha_of_mem (a : ℚ) (h1 : -2 ≤ a) (h2 : a ≤ 4.8) :
    clampAlpha a = a := by
  rw [clampAlpha, max_eq_left h1, min_eq_left h2]

lemma clampAlpha_of_lt (a : ℚ) (h : a < -2) : clampAlpha a = -2 := by
  rw [clampAlpha, max_eq_right h.le, min_eq_left (by norm_num)]

lemma clampAlpha_of_gt (a : ℚ) (h : 4.8 < a) : clampAlpha a = 4.8 := by
  rw [clampAlpha, max_eq_left (le_trans (by norm_num) h.le), min_eq_right h.le]

lemma warnOf_of_mem (a : ℚ) (h1 : -2 ≤ a) (h2 : a ≤ 4.8) : warnOf a = [] := by
  rw [warnOf, if_neg (not_lt.mpr h1), if_neg (not_lt.mpr h2)]

lemma warnOf_of_lt (a : ℚ) (h : a < -2) : warnOf a = [Warning.tooSmall a] := by
  rw [warnOf, if_pos h]

lemma warnOf_of_gt (a : ℚ) (h : 4.8 < a) : warnOf a = [Warning.tooLarge a] := by
  rw [warnOf, if_neg (not_lt.mpr (le_trans (by norm_num) h.le)), if_pos h]

lemma ageScalar_of_lt (I : ℚ → ℚ → ℚ) (a : ℚ) (h : a < -2) :
    ageScalar I a = ageScalar I (-2) := by
  rw [ageScalar, ageScalar, clampAlpha_of_lt a h,
    clampAlpha_of_mem (-2) (by norm_num) (by norm_num)]

lemma ageScalar_of_gt (I : ℚ → ℚ → ℚ) (a : ℚ) (h : 4.8 < a) :
    ageScalar I a = ageScalar I 4.8 := by
  rw [ageScalar, ageScalar, clampAlpha_of_gt a h,
    clampAlpha_of_mem 4.8 (by norm_num) (by norm_num)]

lemma histo_alpha_maximum : histo_alpha.maximum = ((4.773609796 : ℚ) : WithBot ℚ) :=
  List.maximum_eq_coe_iff.mpr ⟨histo_alpha_max_mem, histo_alpha_le_max⟩

lemma histo_value_head_mem : (0.002449976 : ℚ) ∈ histo_value := by
  rw [histo_value]; exact List.mem_cons_self _ _

/-- A concrete spline-integral oracle (`I p q = p - q`, the integral of
the constant function 1) used to instantiate the generic theorems in the
closed witness statements below. -/
def Isub : ℚ → ℚ → ℚ := fun p q => p - q

/-- Claim C1: for every scalar input `a` in [-2, 4.8], `Age` returns
exactly `splint(alpha_max, a, tck_36) * 2 / splint(-0.3, -1.6, tck_36)`,
where the spline integral is the oracle `I` (the clamp is the identity on
this range, so the upper bound of the numerator integral is `alpha_max =
4.814672904812319` and its lower bound is `a` itself). -/
theorem C1_scalar_integral_ratio (I : ℚ → ℚ → ℚ) (a : ℚ)
    (h1 : -2 ≤ a) (h2 : a ≤ 4.8) :
    Age I (PyVal.pyFloat a) =
      Except.ok (PyOut.scalar (I alpha_max a * 2 / I (-0.3) (-1.6)), warnOf a) := by
  rw [Age_float, ageScalar, clampAlpha_of_mem a h1 h2]

theorem C1_scalar_integral_ratio_witness :
    ((-2 : ℚ) ≤ 0) ∧ ((0 : ℚ) ≤ 4.8) ∧
      Age Isub (PyVal.pyFloat 0) =
        Except.ok (PyOut.scalar (Isub alpha_max 0 * 2 / Isub (-0.3) (-1.6)), warnOf 0) :=
  ⟨by norm_num, by norm_num, C1_scalar_integral_ratio Isub 0 (by norm_num) (by norm_num)⟩

/-- Claim C2: a scalar below -2 is clamped to -2, returns the same value
as the input -2, and emits exactly one too-small warning carrying the
original value; a scalar above 4.8 is clamped to 4.8, returns the same
value as the input 4.8, and emits exactly one too-large warning carrying
the original value; in a sequence both clampings act independently
elementwise, each element contributing its own warning. -/
theorem C2_out_of_range_clamp (I : ℚ → ℚ → ℚ) (a b : ℚ)
    (ha : a < -2) (hb : 4.8 < b) :
    Age I (PyVal.pyFloat a) =
      Except.ok (PyOut.scalar (ageScalar I (-2)), [Warning.tooSmall a]) ∧
    Age I (PyVal.pyFloat (-2)) =
      Except.ok (PyOut.scalar (ageScalar I (-2)), []) ∧
    Age I (PyVal.pyFloat b) =
      Except.ok (PyOut.scalar (ageScalar I 4.8), [Warning.tooLarge b]) ∧
    Age I (PyVal.pyFloat 4.8) =
      Except.ok (PyOut.scalar (ageScalar I 4.8), []) ∧
    Age I (PyVal.pyList [a, b]) =
      Except.ok (PyOut.vector [ageScalar I (-2), ageScalar I 4.8],
        [Warning.tooSmall a, Warning.tooLarge b]) := by
  refine ⟨?_, ?_, ?_, ?_, ?_⟩
  · rw [Age_float, ageScalar_of_lt I a ha, warnOf_of_lt a ha]
  · rw [Age_float, warnOf_of_mem (-2) (by norm_num) (by norm_num)]
  · rw [Age_float, ageScalar_of_gt I b hb, warnOf_of_gt b hb]
  · rw [Age_float, warnOf_of_mem 4.8 (by norm_num) (by norm_num)]
  · rw [Age_list]
    simp only [List.map_cons, List.map_nil, List.flatMap_cons, List.flatMap_nil,
      List.append_nil]
    rw [ageScalar_of_lt I a ha, ageScalar_of_gt I b hb,
      warnOf_of_lt a ha, warnOf_of_gt b hb]
    rfl

theorem C2_out_of_range_clamp_witness :
    ((-5 : ℚ) < -2) ∧ ((4.8 : ℚ) < 5) ∧
      Age Isub (PyVal.pyFloat (-5)) =
        Except.ok (PyOut.scalar (ageScalar Isub (-2)), [Warning.tooSmall (-5)]) :=
  ⟨by norm_num, by norm_num,
    (C2_out_of_range_clamp Isub (-5) 5 (by norm_num) (by norm_num)).1⟩

/-- Claim C3 fails on the code: the maximum element of `histo_alpha` is
4.773609796, and the hardcoded literal `alpha_max = 4.814672904812319` is
not equal to it. -/
theorem C3_alpha_max_counterexample :
    histo_alpha.maximum = ((4.773609796 : ℚ) : WithBot ℚ) ∧
    alpha_max ≠ (4.773609796 : ℚ) :=
  ⟨histo_alpha_maximum, by rw [alpha_max]; norm_num⟩

/-- Claim C3, amended: `alpha_max` is not the maximum element of
`histo_alpha` but a strict upper bound for it, exceeding the true maximum
4.773609796 by exactly 0.041063108812319 (about half the ≈0.0821262 bin
spacing, i.e. roughly the upper edge of the last bin). -/
theorem C3_alpha_max_strict_upper_bound :
    (∀ x ∈ histo_alpha, x < alpha_max) ∧
    alpha_max - (4.773609796 : ℚ) = (0.041063108812319 : ℚ) :=
  ⟨fun x hx => lt_of_le_of_lt (histo_alpha_le_max x hx) alpha_max_gt_max,
   alpha_max_gap⟩

theorem C3_alpha_max_strict_upper_bound_witness :
    (4.773609796 : ℚ) ∈ histo_alpha ∧ (4.773609796 : ℚ) < alpha_max :=
  ⟨histo_alpha_max_mem,
    C3_alpha_max_strict_upper_bound.1 (4.773609796 : ℚ) histo_alpha_max_mem⟩

/-- Claim C4 fails on the code: both calibration lists have exactly 96
elements, not 97. -/
theorem C4_length_counterexample :
    histo_alpha.length = 96 ∧ histo_value.length = 96 ∧ (96 : ℕ) ≠ 97 :=
  ⟨histo_alpha_length, histo_value_length, by norm_num⟩

/-- Claim C4, amended: `histo_alpha` and `histo_value` each have exactly
96 elements; `histo_alpha` is strictly increasing; every element of
`histo_value` is non-negative. -/
theorem C4_calibration_invariants :
    histo_alpha.length = 96 ∧ histo_value.length = 96 ∧
    List.Chain' (· < ·) histo_alpha ∧ ∀ x ∈ histo_value, 0 ≤ x :=
  ⟨histo_alpha_length, histo_value_length, histo_alpha_chain, histo_value_nonneg⟩

theorem C4_calibration_invariants_witness :
    (0.002449976 : ℚ) ∈ histo_value ∧ (0 : ℚ) ≤ (0.002449976 : ℚ) :=
  ⟨histo_value_head_mem,
    C4_calibration_invariants.2.2.2 (0.002449976 : ℚ) histo_value_head_mem⟩

/-- Claim C5: on a list input, `Age` returns a list of the same length
whose i-th element is exactly the scalar result for the i-th input
element, in order. -/
theorem C5_vector_elementwise (I : ℚ → ℚ → ℚ) (xs : List ℚ) :
    ∃ ys : List ℚ,
      Age I (PyVal.pyList xs) =
        Except.ok (PyOut.vector ys, xs.flatMap warnOf) ∧
      ys.length = xs.length ∧
      ∀ (i : ℕ) (a : ℚ), xs[i]? = some a →
        ys[i]? = some (ageScalar I a) ∧
        Age I (PyVal.pyFloat a) =
          Except.ok (PyOut.scalar (ageScalar I a), warnOf a) := by
  refine ⟨xs.map (ageScalar I), Age_list I xs, by simp, ?_⟩
  intro i a h
  refine ⟨?_, Age_float I a⟩
  simp [List.getElem?_map, h]

theorem C5_vector_elementwise_witness :
    ∃ ys : List ℚ,
      Age Isub (PyVal.pyList [0]) =
        Except.ok (PyOut.vector ys, ([0] : List ℚ).flatMap warnOf) ∧
      ys.length = ([0] : List ℚ).length ∧
      ∀ (i : ℕ) (a : ℚ), (([0] : List ℚ))[i]? = some a →
        ys[i]? = some (ageScalar Isub a) ∧
        Age Isub (PyVal.pyFloat a) =
          Except.ok (PyOut.scalar (ageScalar Isub a), warnOf a) :=
  C5_vector_elementwise Isub [0]

/-- Claim C6: for a scalar input in [-2, 4.8], `Age` emits no warning
(both warning branches are off) and returns a value — in this exact
rational model every value is a finite real, with no NaN or infinity
representable. -/
theorem C6_in_range_no_warning (I : ℚ → ℚ → ℚ) (a : ℚ)
    (h1 : -2 ≤ a) (h2 : a ≤ 4.8) :
    warnOf a = [] ∧
    Age I (PyVal.pyFloat a) =
      Except.ok (PyOut.scalar (ageScalar I a), []) := by
  have hw := warnOf_of_mem a h1 h2
  exact ⟨hw, by rw [Age_float, hw]⟩

theorem C6_in_range_no_warning_witness :
    ((-2 : ℚ) ≤ 1) ∧ ((1 : ℚ) ≤ 4.8) ∧ warnOf 1 = [] ∧
      Age Isub (PyVal.pyFloat 1) =
        Except.ok (PyOut.scalar (ageScalar Isub 1), []) :=
  ⟨by norm_num, by norm_num,
    (C6_in_range_no_warning Isub 1 (by norm_num) (by norm_num)).1,
    (C6_in_range_no_warning Isub 1 (by norm_num) (by norm_num)).2⟩

/-- Claim C7: calling `Age` with the argument omitted uses the default
`alpha = 0.0`, so it equals `Age` at the float 0.0 and emits no
warning. -/
theorem C7_default_is_zero (I : ℚ → ℚ → ℚ) :
    AgeDefault I = Age I (PyVal.pyFloat 0) ∧
    AgeDefault I = Except.ok (PyOut.scalar (ageScalar I 0), []) :=
  ⟨rfl, by rw [AgeDefault, Age_float, warnOf_of_mem 0 (by norm_num) (by norm_num)]⟩

theorem C7_default_is_zero_witness :
    AgeDefault Isub = Age Isub (PyVal.pyFloat 0) ∧
    AgeDefault Isub = Except.ok (PyOut.scalar (ageScalar Isub 0), []) :=
  C7_default_is_zero Isub

/-- Claim C8: `Age` is deterministic and history-free: equal inputs give
equal outputs, and the result of a call appended to any sequence of prior
calls is exactly the result of that call alone — the embedding is a pure
function of the input and the fixed oracle, reading no other state. -/
theorem C8_deterministic (I : ℚ → ℚ → ℚ) (v w : PyVal) (h : v = w)
    (history : List PyVal) :
    Age I v = Age I w ∧
    (history.map (Age I) ++ [Age I v]).getLast? = some (Age I v) := by
  subst h
  exact ⟨rfl, List.getLast?_concat _⟩

theorem C8_deterministic_witness :
    Age Isub (PyVal.pyFloat 1) = Age Isub (PyVal.pyFloat 1) ∧
    ([PyVal.pyFloat 2].map (Age Isub) ++ [Age Isub (PyVal.pyFloat 1)]).getLast? =
      some (Age Isub (PyVal.pyFloat 1)) :=
  C8_deterministic Isub (PyVal.pyFloat 1) (PyVal.pyFloat 1) rfl [PyVal.pyFloat 2]

/-- Claim C9: on the empty list, `Age` returns the empty list and emits
no warning. -/
theorem C9_empty_sequence (I : ℚ → ℚ → ℚ) :
    Age I (PyVal.pyList []) = Except.ok (PyOut.vector [], []) := rfl

theorem C9_empty_sequence_witness :
    Age Isub (PyVal.pyList []) = Except.ok (PyOut.vector [], []) :=
  C9_empty_sequence Isub

/-- Claim C10: the scalar branch is taken exactly for the builtin types
`int` and `float` (an exact type test); an `int` input gives the same
result as the equal-valued float; a `bool` (whose exact type is `bool`,
not `int`) falls to the sequence branch, where iterating it raises
`TypeError`; a list is iterated elementwise. -/
theorem C10_exact_type_dispatch (I : ℚ → ℚ → ℚ) (n : ℤ) (q : ℚ) (b : Bool)
    (xs : List ℚ) :
    scalarBranch (PyVal.pyInt n) = true ∧
    scalarBranch (PyVal.pyFloat q) = true ∧
    scalarBranch (PyVal.pyBool b) = false ∧
    scalarBranch (PyVal.pyList xs) = false ∧
    Age I (PyVal.pyInt n) = Age I (PyVal.pyFloat (n : ℚ)) ∧
    Age I (PyVal.pyBool b) = Except.error PyError.typeError ∧
    Age I (PyVal.pyList xs) =
      Except.ok (PyOut.vector (xs.map (ageScalar I)), xs.flatMap warnOf) :=
  ⟨rfl, rfl, rfl, rfl, rfl, rfl, rfl⟩

theorem C10_exact_type_dispatch_witness :
    scalarBranch (PyVal.pyInt 3) = true ∧
    scalarBranch (PyVal.pyFloat (1 / 2)) = true ∧
    scalarBranch (PyVal.pyBool true) = false ∧
    scalarBranch (PyVal.pyList [1]) = false ∧
    Age Isub (PyVal.pyInt 3) = Age Isub (PyVal.pyFloat ((3 : ℤ) : ℚ)) ∧
    Age Isub (PyVal.pyBool true) = Except.error PyError.typeError ∧
    Age Isub (PyVal.pyList [1]) =
      Except.ok (PyOut.vector (([1] : List ℚ).map (ageScalar Isub)),
        ([1] : List ℚ).flatMap warnOf) :=
  C10_exact_type_dispatch Isub 3 (1 / 2) true [1]

end DiskAge
